import Mathlib

/-!
Shallow embedding of the cloud/shadow-mask pipeline of `src/A4/a4.py`.

The script drives the Google Earth Engine (EE) client: images are rasters of
named bands, collections are lists of images, and the local logic consists of
threshold comparisons, band algebra, an identifier join, morphological
filtering radii and map-layer configuration.  Pixel rasters are modelled as
total functions from an integer grid to rational sample values; EE's deferred
server-side evaluation is modelled by ordinary function application.  The one
genuinely remote computation used by the script, `directionalDistanceTransform`
(together with the `select("distance")`/`mask()` post-processing applied to
it), has no local definition in the repository, so it is passed to the shadow
functions as an opaque parameter.
-/

/-- Pixel position on the raster grid. -/
abbrev Pixel := ℤ × ℤ

/-- One raster band's sample values, one rational per pixel. -/
abbrev Raster := Pixel → ℚ

/-- Area of interest: the script uses a single geographic point
(`ee.Geometry.Point`), modelled as a (longitude, latitude) pair. -/
abbrev Aoi := ℚ × ℚ

/-- One named band of an image: its name, the nominal scale (resolution in
linear units) of the grid it is materialised on, and its data. -/
structure Band where
  name : String
  scale : ℚ
  data : Raster

/-- An EE image: a list of named bands plus the scene metadata the script
reads (`system:index`, acquisition date, `CLOUDY_PIXEL_PERCENTAGE`,
`MEAN_SOLAR_AZIMUTH_ANGLE`).  Spatial containment of an area of interest is
modelled by the predicate `coversAoi`, since footprint geometry is resolved
server-side.  Dates are modelled as `YYYYMMDD` naturals, which order exactly
like the ISO date strings of the script. -/
structure EEImage where
  bands : List Band
  index : String
  date : ℕ
  cloudyPixelPercentage : ℚ
  meanSolarAzimuthAngle : ℚ
  coversAoi : Aoi → Bool

/-- Image with no bands and empty metadata; used where EE would build a fresh
image container. -/
def emptyImage : EEImage :=
  { bands := [], index := "", date := 0, cloudyPixelPercentage := 0,
    meanSolarAzimuthAngle := 0, coversAoi := fun _ => false }

/-- Band returned by `select` when no band of the requested name exists. -/
def defaultBand (n : String) : Band :=
  { name := n, scale := 0, data := fun _ => 0 }

/-- Model of `img.select(name)`: the single-band image holding the first band
of the given name. -/
def EEImage.select (img : EEImage) (n : String) : EEImage :=
  { img with bands := [(img.bands.find? (fun b => b.name == n)).getD (defaultBand n)] }

/-- Apply a raster transformation to every band of an image. -/
def EEImage.mapData (img : EEImage) (f : Raster → Raster) : EEImage :=
  { img with bands := img.bands.map (fun b => { b with data := f b.data }) }

/-- Model of `img.gt(t)`: per-pixel strict greater-than test, yielding the
boolean raster encoded as 1/0 exactly as EE does. -/
def EEImage.gt (img : EEImage) (t : ℚ) : EEImage :=
  img.mapData (fun d p => if t < d p then 1 else 0)

/-- Model of `img.lt(t)`: per-pixel strict less-than test, 1/0 valued. -/
def EEImage.lt (img : EEImage) (t : ℚ) : EEImage :=
  img.mapData (fun d p => if d p < t then 1 else 0)

/-- Model of `img.neq(t)`: per-pixel inequality test, 1/0 valued. -/
def EEImage.neq (img : EEImage) (t : ℚ) : EEImage :=
  img.mapData (fun d p => if d p ≠ t then 1 else 0)

/-- Model of `img.multiply(other)`: bandwise pointwise product. -/
def EEImage.multiply (img other : EEImage) : EEImage :=
  let combined := List.zipWith (fun a b => { a with data := fun p => a.data p * b.data p }) img.bands other.bands
  { img with bands := combined }

/-- Model of `img.add(other)`: bandwise pointwise sum. -/
def EEImage.add (img other : EEImage) : EEImage :=
  let combined := List.zipWith (fun a b => { a with data := fun p => a.data p + b.data p }) img.bands other.bands
  { img with bands := combined }

/-- Model of `img.rename(n)` on the single-band images the script renames. -/
def EEImage.rename (img : EEImage) (n : String) : EEImage :=
  { img with bands := img.bands.map (fun b => { b with name := n }) }

/-- Model of `img.reproject(crs, scale)`: the script only ever changes the
nominal scale; resampling itself happens server-side, so the data is kept on
the same grid and the recorded scale is updated. -/
def EEImage.reproject (img : EEImage) (s : ℚ) : EEImage :=
  { img with bands := img.bands.map (fun b => { b with scale := s }) }

/-- Model of `img.addBands(other)`: the original bands followed by the new
ones. -/
def EEImage.addBands (img other : EEImage) : EEImage :=
  { img with bands := img.bands ++ other.bands }

/-- Model of `ee.Image([i1, i2, ...])`: one image holding all their bands. -/
def imageList (l : List EEImage) : EEImage :=
  { emptyImage with bands := (l.map EEImage.bands).flatten }

/-- Model of `img.selfMask()`.  Pixel validity masks are display-only in this
script and are not carried by the raster model, so the band data is unchanged. -/
def EEImage.selfMask (img : EEImage) : EEImage := img

/-- Offsets of the circular focal kernel of the given radius (EE's default
`focal_min`/`focal_max` kernel, radius in pixels): all integer offsets whose
distance from the centre is at most the radius.  The comparison
`dx^2 + dy^2 <= r^2` is carried out on integers after clearing the
denominator of `r`. -/
def focalOffsets (r : ℚ) : List (ℤ × ℤ) :=
  let n : ℕ := (((r.num + (r.den : ℤ) - 1) / (r.den : ℤ))).toNat
  (List.range (2 * n + 1)).flatMap (fun i =>
    (List.range (2 * n + 1)).filterMap (fun j =>
      let dx : ℤ := (i : ℤ) - (n : ℤ)
      let dy : ℤ := (j : ℤ) - (n : ℤ)
      if (dx * dx + dy * dy) * ((r.den : ℤ) * (r.den : ℤ)) ≤ r.num * r.num then
        some (dx, dy)
      else none))

/-- Morphological erosion on one raster: minimum over the circular
neighbourhood of the given radius. -/
def focalMinR (r : ℚ) (d : Raster) : Raster := fun p =>
  (((focalOffsets r).map (fun o => d (p.1 + o.1, p.2 + o.2))).foldr min (d p))

/-- Morphological dilation on one raster: maximum over the circular
neighbourhood of the given radius. -/
def focalMaxR (r : ℚ) (d : Raster) : Raster := fun p =>
  (((focalOffsets r).map (fun o => d (p.1 + o.1, p.2 + o.2))).foldr max (d p))

/-- Model of `img.focalMin(r)`. -/
def EEImage.focalMin (img : EEImage) (r : ℚ) : EEImage :=
  img.mapData (focalMinR r)

/-- Model of `img.focalMax(r)`. -/
def EEImage.focalMax (img : EEImage) (r : ℚ) : EEImage :=
  img.mapData (focalMaxR r)

/-- Band names of an image, in order. -/
def bandNames (img : EEImage) : List String :=
  img.bands.map Band.name

/-- Data of the first band of an image (the band `select` produces). -/
def firstBandData (img : EEImage) : Raster :=
  match img.bands with
  | [] => fun _ => 0
  | b :: _ => b.data

/-- Script parameter: the area of interest, `ee.Geometry.Point(8.642, 49.877)`. -/
def AOI : Aoi := (8.642, 49.877)

/-- Script parameter: start date `"2024-06-03"`, inclusive. -/
def START_DATE : ℕ := 20240603

/-- Script parameter: end date `"2024-06-04"`, exclusive. -/
def END_DATE : ℕ := 20240604

/-- Script parameter: maximum scene-level cloudy-pixel percentage. -/
def CLOUD_FILTER : ℚ := 60

/-- Script parameter: cloud-probability threshold. -/
def CLD_PRB_THRESH : ℚ := 50

/-- Script parameter: near-infrared darkness threshold. -/
def NIR_DRK_THRESH : ℚ := 0.15

/-- Script parameter: cloud-projection distance factor. -/
def CLD_PRJ_DIST : ℚ := 1

/-- Script parameter: buffer radius used when dilating the mask. -/
def BUFFER : ℚ := 50

/-- A surface-reflectance scene together with the cloud-probability image the
join attached to it under the `s2cloudless` property. -/
structure JoinedImage where
  base : EEImage
  s2cloudless : EEImage

/-- Model of `filterBounds(aoi)`. -/
def filterBounds (aoi : Aoi) (col : List EEImage) : List EEImage :=
  col.filter (fun i => i.coversAoi aoi)

/-- Model of `filterDate(start, end)`: keeps scenes with
`start <= date < end` (start inclusive, end exclusive). -/
def filterDate (start_date end_date : ℕ) (col : List EEImage) : List EEImage :=
  col.filter (fun i => decide (start_date ≤ i.date ∧ i.date < end_date))

/-- Model of `filter(ee.Filter.lte("CLOUDY_PIXEL_PERCENTAGE", t))`. -/
def filterCloudyLte (t : ℚ) (col : List EEImage) : List EEImage :=
  col.filter (fun i => decide (i.cloudyPixelPercentage ≤ t))

/-- Model of `ee.Join.saveFirst("s2cloudless")` with an `ee.Filter.equals`
condition on `system:index`: every primary scene that has at least one
secondary scene of exactly equal identifier is kept, with the first such
secondary attached; primaries without a match are silently dropped, and
unmatched secondaries are simply unused. -/
def joinSaveFirst (primary secondary : List EEImage) : List JoinedImage :=
  primary.filterMap (fun s =>
    (secondary.find? (fun c => c.index == s.index)).map (fun c => JoinedImage.mk s c))

/-- Model of `get_s2_sr_cld_col(aoi, start_date, end_date)`.  The two remote
collections `COPERNICUS/S2_SR_HARMONIZED` and `COPERNICUS/S2_CLOUD_PROBABILITY`
are external data sources, so they are passed in as arguments. -/
def get_s2_sr_cld_col (s2_sr_data s2_cloudless_data : List EEImage)
    (aoi : Aoi) (start_date end_date : ℕ) : List JoinedImage :=
  let s2_sr_col :=
    filterCloudyLte CLOUD_FILTER (filterDate start_date end_date (filterBounds aoi s2_sr_data))
  let s2_cloudless_col := filterDate start_date end_date (filterBounds aoi s2_cloudless_data)
  joinSaveFirst s2_sr_col s2_cloudless_col

/-- The `cld_prb` local of `add_cloud_bands`: the probability band of the
attached cloud-probability image. -/
def cld_prb (img : JoinedImage) : EEImage :=
  img.s2cloudless.select "probability"

/-- The `is_cloud` local of `add_cloud_bands`:
`cld_prb.gt(CLD_PRB_THRESH).rename("clouds")`. -/
def is_cloud (img : JoinedImage) : EEImage :=
  ((cld_prb img).gt CLD_PRB_THRESH).rename "clouds"

/-- Model of `add_cloud_bands(img)`: the input plus the probability band and
the derived is-cloud band appended. -/
def add_cloud_bands (img : JoinedImage) : JoinedImage :=
  { img with base := img.base.addBands (imageList [cld_prb img, is_cloud img]) }

/-- The `not_water` local of `add_shadow_bands`: scene-classification value
different from the water class code 6. -/
def not_water (img : JoinedImage) : EEImage :=
  (img.base.select "SCL").neq 6

/-- The `SR_BAND_SCALE` local of `add_shadow_bands`. -/
def SR_BAND_SCALE : ℚ := 10000

/-- The `dark_pixels` local of `add_shadow_bands`: near-infrared reflectance
below `NIR_DRK_THRESH * SR_BAND_SCALE`, intersected with the non-water mask. -/
def dark_pixels (img : JoinedImage) : EEImage :=
  (((img.base.select "B8").lt (NIR_DRK_THRESH * SR_BAND_SCALE)).multiply
    (not_water img)).rename "dark_pixels"

/-- The `shadow_azimuth` local of `add_shadow_bands`:
`ee.Number(90).subtract(MEAN_SOLAR_AZIMUTH_ANGLE)`. -/
def shadow_azimuth (img : JoinedImage) : ℚ :=
  90 - img.base.meanSolarAzimuthAngle

/-- Signature of the remote directional distance transform: it receives the
cloud raster, the shadow azimuth and the projection distance, and yields the
masked `distance` raster.  The computation is performed server-side and has no
definition in this repository, so it is an opaque parameter of the shadow
functions. -/
abbrev DirectionalDistanceTransform := Raster → ℚ → ℚ → Raster

/-- Apply the opaque remote distance transform to every band of an image. -/
def EEImage.applyDistanceTransform (img : EEImage)
    (ddt : DirectionalDistanceTransform) (az dist : ℚ) : EEImage :=
  img.mapData (fun d => ddt d az dist)

/-- The `cld_proj` local of `add_shadow_bands`: the cloud band projected along
the shadow direction for `CLD_PRJ_DIST * 10` units, reprojected at scale 100
and renamed `cloud_transform`. -/
def cld_proj (ddt : DirectionalDistanceTransform) (img : JoinedImage) : EEImage :=
  ((((img.base.select "clouds").applyDistanceTransform ddt
      (shadow_azimuth img) (CLD_PRJ_DIST * 10)).reproject 100).rename "cloud_transform")

/-- The `shadows` local of `add_shadow_bands`: projected-shadow raster times
dark-pixel raster (both 1/0 valued, so the product is a logical AND). -/
def shadows (ddt : DirectionalDistanceTransform) (img : JoinedImage) : EEImage :=
  ((cld_proj ddt img).multiply (dark_pixels img)).rename "shadows"

/-- Model of `add_shadow_bands(img)`: the input plus the dark-pixel band, the
cloud-projection band and the shadow band appended. -/
def add_shadow_bands (ddt : DirectionalDistanceTransform) (img : JoinedImage) : JoinedImage :=
  { img with base := img.base.addBands (imageList [dark_pixels img, cld_proj ddt img, shadows ddt img]) }

/-- The `is_cld_shdw` local of `add_cld_shdw_mask` before filtering: clouds
and shadows combined by sum-greater-than-zero (boolean OR). -/
def is_cld_shdw (ddt : DirectionalDistanceTransform) (img : JoinedImage) : EEImage :=
  let img_cloud_shadow := add_shadow_bands ddt (add_cloud_bands img)
  ((img_cloud_shadow.base.select "clouds").add
    (img_cloud_shadow.base.select "shadows")).gt 0

/-- The filtered `is_cld_shdw` of `add_cld_shdw_mask`: erosion of radius 2,
dilation of radius `BUFFER * 2 / 20`, reprojection at scale 20 and renaming to
`cloudmask`. -/
def cloudmask_band (ddt : DirectionalDistanceTransform) (img : JoinedImage) : EEImage :=
  ((((is_cld_shdw ddt img).focalMin 2).focalMax (BUFFER * 2 / 20)).reproject 20).rename
    "cloudmask"

/-- Model of `add_cld_shdw_mask(img)`: computes the cloud and shadow bands
itself by running `add_cloud_bands` and `add_shadow_bands` on its input, then
appends the combined, morphologically filtered `cloudmask` band. -/
def add_cld_shdw_mask (ddt : DirectionalDistanceTransform) (img : JoinedImage) : JoinedImage :=
  let img_cloud := add_cloud_bands img
  let img_cloud_shadow := add_shadow_bands ddt img_cloud
  { img_cloud_shadow with
      base := img_cloud_shadow.base.addBands (cloudmask_band ddt img) }

/-- Visualization parameters of one display layer (the `vis_params` dict the
script passes to `add_ee_layer`): band selection, value range, gamma and
palette. -/
structure VisParams where
  bandsSel : List String
  minVal : Option ℚ
  maxVal : Option ℚ
  gamma : Option ℚ
  palette : List String

/-- One folium tile layer as constructed by `add_ee_layer`: the image and
styling it renders, plus the `folium.raster_layers.TileLayer` constructor
flags.  The Python parameter `show` is called `shown` here because `show` is a
Lean keyword. -/
structure TileLayer where
  img : EEImage
  vis : VisParams
  name : String
  shown : Bool
  opacity : ℚ
  min_zoom : ℕ
  overlay : Bool
  control : Bool

/-- A folium map: centre location, initial zoom, attached tile layers, and
whether a `LayerControl` child has been added. -/
structure FoliumMap where
  location : ℚ × ℚ
  zoom_start : ℕ
  layers : List TileLayer
  layer_control : Bool

/-- Model of `add_ee_layer(self, ee_image_object, vis_params, name, show,
opacity, min_zoom)`: appends a tile layer built with `overlay=True` and
`control=True` to the map. -/
def add_ee_layer (self : FoliumMap) (ee_image_object : EEImage) (vis_params : VisParams)
    (nm : String) (shown : Bool) (opacity : ℚ) (min_zoom : ℕ) : FoliumMap :=
  let tl : TileLayer :=
    { img := ee_image_object, vis := vis_params, name := nm, shown := shown,
      opacity := opacity, min_zoom := min_zoom, overlay := true, control := true }
  { self with layers := self.layers ++ [tl] }

/-- The Python default values of the `show`, `opacity` and `min_zoom`
parameters of `add_ee_layer`. -/
def ADD_EE_LAYER_SHOW_DEFAULT : Bool := true

/-- Python default of the `opacity` parameter of `add_ee_layer`. -/
def ADD_EE_LAYER_OPACITY_DEFAULT : ℚ := 1

/-- Python default of the `min_zoom` parameter of `add_ee_layer`. -/
def ADD_EE_LAYER_MIN_ZOOM_DEFAULT : ℕ := 0

/-- A call of `add_ee_layer` in which `show`, `opacity` and `min_zoom` are
omitted, which Python completes with the declared default values. -/
def add_ee_layer_defaulted (self : FoliumMap) (ee_image_object : EEImage)
    (vis_params : VisParams) (nm : String) : FoliumMap :=
  add_ee_layer self ee_image_object vis_params nm ADD_EE_LAYER_SHOW_DEFAULT
    ADD_EE_LAYER_OPACITY_DEFAULT ADD_EE_LAYER_MIN_ZOOM_DEFAULT

/-- Model of `col.mosaic()`: one image holding the bands of all member
scenes, with scenes later in the collection taking precedence (EE composites
later images on top, and `select` here finds the first band of a name, so the
band lists are concatenated in reverse collection order). -/
def mosaic (col : List JoinedImage) : EEImage :=
  match col with
  | [] => emptyImage
  | j :: _ => { j.base with bands := ((col.reverse.map (fun k => k.base.bands)).flatten) }

/-- Model of `AOI.centroid(10).coordinates().reverse()`: the centroid of a
point is the point itself, and reversing its (longitude, latitude) coordinate
list yields (latitude, longitude). -/
def centroidCoordinatesReversed (a : Aoi) : ℚ × ℚ := (a.2, a.1)

/-- Visualization parameters of the `"S2 image"` layer. -/
def S2_VIS : VisParams :=
  { bandsSel := ["B4", "B3", "B2"], minVal := some 0, maxVal := some 2500,
    gamma := some 1.1, palette := [] }

/-- Visualization parameters of the `"probability (cloud)"` layer. -/
def PROBABILITY_VIS : VisParams :=
  { bandsSel := [], minVal := some 0, maxVal := some 100, gamma := none, palette := [] }

/-- Visualization parameters of the `"clouds"` layer. -/
def CLOUDS_VIS : VisParams :=
  { bandsSel := [], minVal := none, maxVal := none, gamma := none, palette := ["e056fd"] }

/-- Visualization parameters of the `"cloud_transform"` layer. -/
def CLOUD_TRANSFORM_VIS : VisParams :=
  { bandsSel := [], minVal := some 0, maxVal := some 1, gamma := none,
    palette := ["white", "black"] }

/-- Visualization parameters of the `"dark_pixels"` layer. -/
def DARK_PIXELS_VIS : VisParams :=
  { bandsSel := [], minVal := none, maxVal := none, gamma := none, palette := ["orange"] }

/-- Visualization parameters of the `"shadows"` layer. -/
def SHADOWS_VIS : VisParams :=
  { bandsSel := [], minVal := none, maxVal := none, gamma := none, palette := ["yellow"] }

/-- Visualization parameters of the `"cloudmask"` layer. -/
def CLOUDMASK_VIS : VisParams :=
  { bandsSel := [], minVal := none, maxVal := none, gamma := none, palette := ["orange"] }

/-- The folium map object `m` that `display_cloud_layers(col)` builds: the
mosaicked collection and each intermediate band attached as a styled tile
layer, centred on the centroid of the area of interest, with a final
`LayerControl` child. -/
def display_cloud_layers_map (col : List JoinedImage) : FoliumMap :=
  let img := mosaic col
  let clouds := (img.select "clouds").selfMask
  let shadows_layer := (img.select "shadows").selfMask
  let dark_pixels_layer := (img.select "dark_pixels").selfMask
  let probability := img.select "probability"
  let cloudmask := (img.select "cloudmask").selfMask
  let cloud_transform := img.select "cloud_transform"
  let center := centroidCoordinatesReversed AOI
  let m : FoliumMap := { location := center, zoom_start := 12, layers := [], layer_control := false }
  let m := add_ee_layer m img S2_VIS "S2 image" true 1 9
  let m := add_ee_layer m probability PROBABILITY_VIS "probability (cloud)" false 1 9
  let m := add_ee_layer m clouds CLOUDS_VIS "clouds" false 1 9
  let m := add_ee_layer m cloud_transform CLOUD_TRANSFORM_VIS "cloud_transform" false 1 9
  let m := add_ee_layer m dark_pixels_layer DARK_PIXELS_VIS "dark_pixels" false 1 9
  let m := add_ee_layer m shadows_layer SHADOWS_VIS "shadows" false 1 9
  let m := add_ee_layer m cloudmask CLOUDMASK_VIS "cloudmask" true 0.5 9
  { m with layer_control := true }

/-- Model of `display_cloud_layers(col)` as a Python function value: the body
builds the folium map (see `display_cloud_layers_map`) but has no `return`
statement, so the call evaluates to `None`. -/
def display_cloud_layers (col : List JoinedImage) : Option FoliumMap :=
  let _m := display_cloud_layers_map col
  none

/-- Model of the module-level statement
`s2_sr_cld_col_eval = get_s2_sr_cld_col(AOI, START_DATE, END_DATE)`. -/
def s2_sr_cld_col_eval (s2_sr_data s2_cloudless_data : List EEImage) : List JoinedImage :=
  get_s2_sr_cld_col s2_sr_data s2_cloudless_data AOI START_DATE END_DATE

/-- Model of the module-level statement
`s2_sr_cld_col_eval_disp = s2_sr_cld_col_eval.map(add_cld_shdw_mask)`. -/
def s2_sr_cld_col_eval_disp (ddt : DirectionalDistanceTransform)
    (s2_sr_data s2_cloudless_data : List EEImage) : List JoinedImage :=
  (s2_sr_cld_col_eval s2_sr_data s2_cloudless_data).map (add_cld_shdw_mask ddt)

/-- The function invocations executed at the top level of the module `a4.py`
(lines 12, 15, 61, 176 and 226), in order: authentication, initialization,
building the joined collection, installing `add_ee_layer` on `folium.Map`, and
mapping `add_cld_shdw_mask` over the collection.  `display_cloud_layers` is
defined but never invoked anywhere in the repository. -/
def a4_top_level_calls : List String :=
  ["ee.Authenticate", "ee.Initialize", "get_s2_sr_cld_col",
   "folium.Map.add_ee_layer assignment", "ImageCollection.map add_cld_shdw_mask"]

/-- A trivial concrete value of the opaque remote distance transform, used
only to instantiate theorems at concrete inputs: it projects no shadows. -/
def zeroDistanceTransform : DirectionalDistanceTransform := fun _ _ _ _ => 0

/-- Concrete probability raster for tests: probability 80 at the origin and
10 elsewhere (the synthetic isolated-cloud scene). -/
def centerProbability : Raster := fun p => if p = (0, 0) then 80 else 10

/-- Concrete cloud-probability image attached to the probe scene. -/
def probeCloudless : EEImage :=
  { bands := [{ name := "probability", scale := 10, data := centerProbability }],
    index := "T1", date := 20240603, cloudyPixelPercentage := 0,
    meanSolarAzimuthAngle := 0, coversAoi := fun _ => true }

/-- Concrete surface-reflectance probe scene: bright near-infrared (no dark
pixels) and a non-water scene classification, azimuth 130 degrees. -/
def probeBase : EEImage :=
  { bands := [{ name := "B8", scale := 10, data := fun _ => 2000 },
              { name := "SCL", scale := 20, data := fun _ => 4 }],
    index := "T1", date := 20240603, cloudyPixelPercentage := 0,
    meanSolarAzimuthAngle := 130, coversAoi := fun _ => true }

/-- The probe scene with its cloud-probability image attached. -/
def probeJoined : JoinedImage := ⟨probeBase, probeCloudless⟩

/-- Cloud-probability image whose probability is exactly the threshold 50
everywhere, for the boundary case. -/
def fiftyCloudless : EEImage :=
  { bands := [{ name := "probability", scale := 10, data := fun _ => 50 }],
    index := "T2", date := 20240603, cloudyPixelPercentage := 0,
    meanSolarAzimuthAngle := 0, coversAoi := fun _ => true }

/-- The probe scene joined with the boundary cloud-probability image. -/
def fiftyJoined : JoinedImage := ⟨probeBase, fiftyCloudless⟩

/-- Water probe scene: scene classification equal to the water class 6
everywhere, and a near-infrared value far below the darkness threshold. -/
def waterBase : EEImage :=
  { bands := [{ name := "B8", scale := 10, data := fun _ => 100 },
              { name := "SCL", scale := 20, data := fun _ => 6 }],
    index := "T3", date := 20240603, cloudyPixelPercentage := 0,
    meanSolarAzimuthAngle := 0, coversAoi := fun _ => true }

/-- The water probe scene with a cloud-probability image attached. -/
def waterJoined : JoinedImage := ⟨waterBase, probeCloudless⟩

/-- A minimal scene with a given identifier, passing all collection filters,
for the join scenario. -/
def mkScene (idx : String) : EEImage :=
  { bands := [], index := idx, date := 20240603, cloudyPixelPercentage := 0,
    meanSolarAzimuthAngle := 0, coversAoi := fun _ => true }

/-- Imagery collection of the join scenario, with identifiers A, B, C. -/
def s2_sr_demo : List EEImage := [mkScene "A", mkScene "B", mkScene "C"]

/-- Cloud-probability collection of the join scenario, with identifiers
A, B, D. -/
def s2_cloudless_demo : List EEImage := [mkScene "A", mkScene "B", mkScene "D"]

/-- Selecting a band by name yields a single band carrying exactly that name
(the found band's name when present, the requested name otherwise). -/
theorem bandNames_select (img : EEImage) (n : String) :
    bandNames (img.select n) = [n] := by
  unfold bandNames EEImage.select
  cases hf : img.bands.find? (fun b => b.name == n) with
  | none => simp [hf, defaultBand]
  | some b =>
      have hb := List.find?_some hf
      have hbn : b.name = n := by simpa using hb
      simp [hf, hbn]

/-- The probability image extracted by `add_cloud_bands` carries exactly the
band `probability`. -/
theorem bandNames_cld_prb (img : JoinedImage) : bandNames (cld_prb img) = ["probability"] :=
  bandNames_select _ _

/-- The is-cloud image built by `add_cloud_bands` carries exactly the band
`clouds`. -/
theorem bandNames_is_cloud (img : JoinedImage) : bandNames (is_cloud img) = ["clouds"] := rfl

/-- The dark-pixel image built by `add_shadow_bands` carries exactly the band
`dark_pixels`. -/
theorem bandNames_dark_pixels (img : JoinedImage) :
    bandNames (dark_pixels img) = ["dark_pixels"] := rfl

/-- The cloud-projection image built by `add_shadow_bands` carries exactly
the band `cloud_transform`. -/
theorem bandNames_cld_proj (ddt : DirectionalDistanceTransform) (img : JoinedImage) :
    bandNames (cld_proj ddt img) = ["cloud_transform"] := rfl

/-- The shadow image built by `add_shadow_bands` carries exactly the band
`shadows`. -/
theorem bandNames_shadows (ddt : DirectionalDistanceTransform) (img : JoinedImage) :
    bandNames (shadows ddt img) = ["shadows"] := rfl

/-- The filtered mask built by `add_cld_shdw_mask` carries exactly the band
`cloudmask`. -/
theorem bandNames_cloudmask_band (ddt : DirectionalDistanceTransform) (img : JoinedImage) :
    bandNames (cloudmask_band ddt img) = ["cloudmask"] := rfl

/-- C1. For every cloud-probability value, the is-cloud band produced by
`add_cloud_bands` is 1 (true) exactly when the probability strictly exceeds
`CLD_PRB_THRESH`; at a pixel whose probability equals the threshold it is 0
(false); and `add_cloud_bands` returns the input with the probability band
and the is-cloud band appended. -/
theorem add_cloud_bands_is_cloud_threshold (img : JoinedImage) (p : Pixel)
    (hp : firstBandData (cld_prb img) p = CLD_PRB_THRESH) :
    (∀ q, firstBandData (is_cloud img) q = 1 ↔
        CLD_PRB_THRESH < firstBandData (cld_prb img) q) ∧
    firstBandData (is_cloud img) p = 0 ∧
    (add_cloud_bands img).base.bands
      = img.base.bands ++ ((cld_prb img).bands ++ (is_cloud img).bands) := by
  have hval : ∀ q, firstBandData (is_cloud img) q
      = if CLD_PRB_THRESH < firstBandData (cld_prb img) q then (1 : ℚ) else 0 :=
    fun _ => rfl
  refine ⟨fun q => ?_, ?_, ?_⟩
  · rw [hval q]
    split_ifs with h
    · simp [h]
    · simp [h]
  · rw [hval p, hp]
    simp
  · simp [add_cloud_bands, EEImage.addBands, imageList]

/-- Witness for C1 at the boundary scene whose probability is exactly 50
everywhere. -/
theorem add_cloud_bands_is_cloud_threshold_wit :
    firstBandData (cld_prb fiftyJoined) (0, 0) = CLD_PRB_THRESH ∧
    ((∀ q, firstBandData (is_cloud fiftyJoined) q = 1 ↔
        CLD_PRB_THRESH < firstBandData (cld_prb fiftyJoined) q) ∧
     firstBandData (is_cloud fiftyJoined) (0, 0) = 0 ∧
     (add_cloud_bands fiftyJoined).base.bands
       = fiftyJoined.base.bands ++ ((cld_prb fiftyJoined).bands ++ (is_cloud fiftyJoined).bands)) :=
  ⟨by decide, add_cloud_bands_is_cloud_threshold fiftyJoined (0, 0) (by decide)⟩

/-- C2. The dark-pixel band produced by `add_shadow_bands` is 1 exactly when
the near-infrared reflectance is below `NIR_DRK_THRESH * SR_BAND_SCALE` and
the non-water flag is 1; the non-water flag is 1 exactly when the
scene-classification value differs from the water class 6; and wherever the
non-water flag is 0, the dark-pixel band is 0 regardless of reflectance. -/
theorem add_shadow_bands_dark_pixels (img : JoinedImage) (p : Pixel)
    (hw : firstBandData (not_water img) p = 0) :
    (∀ q, firstBandData (dark_pixels img) q = 1 ↔
        (firstBandData (img.base.select "B8") q < NIR_DRK_THRESH * SR_BAND_SCALE ∧
         firstBandData (not_water img) q = 1)) ∧
    (∀ q, firstBandData (not_water img) q = 1 ↔
        ¬ firstBandData (img.base.select "SCL") q = 6) ∧
    firstBandData (dark_pixels img) p = 0 := by
  have hvalnw : ∀ q, firstBandData (not_water img) q
      = if firstBandData (img.base.select "SCL") q ≠ 6 then (1 : ℚ) else 0 :=
    fun _ => rfl
  have hvald : ∀ q, firstBandData (dark_pixels img) q
      = (if firstBandData (img.base.select "B8") q < NIR_DRK_THRESH * SR_BAND_SCALE
          then (1 : ℚ) else 0) * firstBandData (not_water img) q :=
    fun _ => rfl
  refine ⟨fun q => ?_, fun q => ?_, ?_⟩
  · rw [hvald q, hvalnw q]
    split_ifs with h1 h2 <;> simp_all
  · rw [hvalnw q]
    split_ifs with h
    · simp [h]
    · simp [h]
  · rw [hvald p, hw, mul_zero]

/-- Witness for C2 at the water scene: classification 6 everywhere, so the
non-water flag is 0 and the dark-pixel band is 0 even though the reflectance
100 is far below the threshold. -/
theorem add_shadow_bands_dark_pixels_wit :
    firstBandData (not_water waterJoined) (0, 0) = 0 ∧
    ((∀ q, firstBandData (dark_pixels waterJoined) q = 1 ↔
        (firstBandData (waterJoined.base.select "B8") q < NIR_DRK_THRESH * SR_BAND_SCALE ∧
         firstBandData (not_water waterJoined) q = 1)) ∧
     (∀ q, firstBandData (not_water waterJoined) q = 1 ↔
        ¬ firstBandData (waterJoined.base.select "SCL") q = 6) ∧
     firstBandData (dark_pixels waterJoined) (0, 0) = 0) :=
  ⟨by decide, add_shadow_bands_dark_pixels waterJoined (0, 0) (by decide)⟩

/-- C5. The shadow-direction angle computed by `add_shadow_bands` is exactly
90 minus the scene's mean solar azimuth angle for every azimuth in [0, 360),
with no wrap-around handling: any azimuth above 90 yields a negative angle. -/
theorem shadow_azimuth_no_wrap (img : JoinedImage)
    (h0 : 0 ≤ img.base.meanSolarAzimuthAngle)
    (h1 : img.base.meanSolarAzimuthAngle < 360) :
    shadow_azimuth img = 90 - img.base.meanSolarAzimuthAngle ∧
    (90 < img.base.meanSolarAzimuthAngle → shadow_azimuth img < 0) := by
  refine ⟨rfl, fun h => ?_⟩
  unfold shadow_azimuth
  linarith

/-- Witness for C5 at the probe scene with azimuth 130. -/
theorem shadow_azimuth_no_wrap_wit :
    (0 ≤ probeJoined.base.meanSolarAzimuthAngle ∧
     probeJoined.base.meanSolarAzimuthAngle < 360) ∧
    (shadow_azimuth probeJoined = 90 - probeJoined.base.meanSolarAzimuthAngle ∧
     (90 < probeJoined.base.meanSolarAzimuthAngle → shadow_azimuth probeJoined < 0)) :=
  ⟨⟨by decide, by decide⟩, shadow_azimuth_no_wrap probeJoined (by decide) (by decide)⟩

/-- Folding `min` over a list is bounded by any member. -/
theorem foldr_min_le_of_mem {l : List ℚ} {a x : ℚ} (hx : x ∈ l) : l.foldr min a ≤ x := by
  induction l with
  | nil => cases hx
  | cons y ys ih =>
      rcases List.mem_cons.mp hx with h | h
      · exact h ▸ min_le_left _ _
      · exact le_trans (min_le_right _ _) (ih h)

/-- A lower bound of every member and of the seed bounds the `min` fold. -/
theorem le_foldr_min {l : List ℚ} {a c : ℚ} (hl : ∀ x ∈ l, c ≤ x) (ha : c ≤ a) :
    c ≤ l.foldr min a := by
  induction l with
  | nil => exact ha
  | cons y ys ih =>
      exact le_min (hl y (List.mem_cons_self _ _))
        (ih fun x hx => hl x (List.mem_cons_of_mem _ hx))

/-- Folding `max` over a list all of whose members equal the seed yields the
seed. -/
theorem foldr_max_const {l : List ℚ} {a : ℚ} (hl : ∀ x ∈ l, x = a) : l.foldr max a = a := by
  induction l with
  | nil => rfl
  | cons y ys ih =>
      rw [List.foldr_cons, ih fun x hx => hl x (List.mem_cons_of_mem _ hx),
        hl y (List.mem_cons_self _ _), max_self]

/-- Erosion of radius 2 wipes out a raster that is 1 at exactly one pixel:
every radius-2 neighbourhood contains at least one pixel different from the
marked one, where the raster is 0. -/
theorem focalMinR_two_single (d : Raster) (p0 : Pixel)
    (h : ∀ p, d p = if p = p0 then 1 else 0) (q : Pixel) :
    focalMinR 2 d q = 0 := by
  have hnn : ∀ p, (0 : ℚ) ≤ d p := by
    intro p
    rw [h p]
    split <;> norm_num
  have h10 : ((1, 0) : ℤ × ℤ) ∈ focalOffsets 2 := by decide
  have h00 : ((0, 0) : ℤ × ℤ) ∈ focalOffsets 2 := by decide
  have hub : ∃ x ∈ (focalOffsets 2).map (fun o => d (q.1 + o.1, q.2 + o.2)), x = 0 := by
    by_cases hq : q = p0
    · refine ⟨d (q.1 + 1, q.2 + 0), List.mem_map_of_mem _ h10, ?_⟩
      have hne : (q.1 + 1, q.2 + 0) ≠ p0 := by
        subst hq
        intro hcon
        rw [Prod.ext_iff] at hcon
        omega
      rw [h, if_neg hne]
    · refine ⟨d (q.1 + 0, q.2 + 0), List.mem_map_of_mem _ h00, ?_⟩
      have hqq : (q.1 + 0, q.2 + 0) = q := by simp
      rw [hqq, h, if_neg hq]
  obtain ⟨x, hxm, hx0⟩ := hub
  unfold focalMinR
  refine le_antisymm (hx0 ▸ foldr_min_le_of_mem hxm) (le_foldr_min ?_ (hnn q))
  intro y hy
  obtain ⟨o, ho, rfl⟩ := List.mem_map.mp hy
  exact hnn _

/-- Dilating the all-zero raster yields the all-zero raster, whatever the
radius. -/
theorem focalMaxR_zero (r : ℚ) (d : Raster) (hz : ∀ p, d p = 0) (q : Pixel) :
    focalMaxR r d q = 0 := by
  unfold focalMaxR
  rw [hz q]
  refine foldr_max_const ?_
  intro x hx
  obtain ⟨o, ho, rfl⟩ := List.mem_map.mp hx
  exact hz _

/-- C4. `add_cld_shdw_mask` combines clouds and shadows by sum-greater-than-
zero (boolean OR), erodes with radius 2, dilates with radius
`BUFFER * 2 / 20` (which equals 5), records the reprojection scale 20, and
appends the result as the `cloudmask` band; and when the combined raster is 1
at exactly one pixel, the eroded-then-dilated cloudmask is 0 everywhere. -/
theorem add_cld_shdw_mask_morphology (ddt : DirectionalDistanceTransform)
    (img : JoinedImage) (p0 : Pixel)
    (h : ∀ p, firstBandData (is_cld_shdw ddt img) p = if p = p0 then 1 else 0) :
    (add_cld_shdw_mask ddt img).base.bands
      = (add_shadow_bands ddt (add_cloud_bands img)).base.bands
          ++ (cloudmask_band ddt img).bands ∧
    bandNames (cloudmask_band ddt img) = ["cloudmask"] ∧
    (cloudmask_band ddt img).bands.map Band.scale = [20] ∧
    (∀ q, firstBandData (is_cld_shdw ddt img) q
      = if 0 < firstBandData ((add_shadow_bands ddt (add_cloud_bands img)).base.select "clouds") q
            + firstBandData ((add_shadow_bands ddt (add_cloud_bands img)).base.select "shadows") q
        then 1 else 0) ∧
    (∀ q, firstBandData (cloudmask_band ddt img) q
      = focalMaxR (BUFFER * 2 / 20) (focalMinR 2 (firstBandData (is_cld_shdw ddt img))) q) ∧
    BUFFER * 2 / 20 = 5 ∧
    (∀ q, firstBandData (cloudmask_band ddt img) q = 0) := by
  refine ⟨rfl, rfl, rfl, fun q => rfl, fun q => rfl, by norm_num [BUFFER], fun q => ?_⟩
  have hcm : firstBandData (cloudmask_band ddt img) q
      = focalMaxR (BUFFER * 2 / 20) (focalMinR 2 (firstBandData (is_cld_shdw ddt img))) q := rfl
  rw [hcm]
  exact focalMaxR_zero _ _ (focalMinR_two_single _ p0 h) q

/-- Evaluation of the combined cloud-plus-shadow raster on the probe scene
with the trivial distance transform: the probability exceeds the threshold at
the origin only, and no shadows are projected, so the combined raster is the
indicator of the origin. -/
theorem probe_is_cld_shdw_eval :
    ∀ p, firstBandData (is_cld_shdw zeroDistanceTransform probeJoined) p
      = if p = (0, 0) then 1 else 0 := by
  intro p
  have hv : firstBandData (is_cld_shdw zeroDistanceTransform probeJoined) p
      = if (0 : ℚ) < (if CLD_PRB_THRESH < centerProbability p then (1 : ℚ) else 0)
            + 0 * firstBandData (dark_pixels probeJoined) p then (1 : ℚ) else 0 := rfl
  rw [hv, zero_mul, add_zero]
  by_cases hp : p = (0, 0)
  · subst hp
    norm_num [centerProbability, CLD_PRB_THRESH]
  · simp only [centerProbability, CLD_PRB_THRESH, hp, if_neg hp, if_false]
    norm_num

/-- Witness for C4 at the probe scene: the synthetic isolated cloud pixel at
the origin is wiped out, leaving an empty cloudmask. -/
theorem add_cld_shdw_mask_morphology_wit :
    (∀ p, firstBandData (is_cld_shdw zeroDistanceTransform probeJoined) p
        = if p = (0, 0) then 1 else 0) ∧
    ((add_cld_shdw_mask zeroDistanceTransform probeJoined).base.bands
      = (add_shadow_bands zeroDistanceTransform (add_cloud_bands probeJoined)).base.bands
          ++ (cloudmask_band zeroDistanceTransform probeJoined).bands ∧
    bandNames (cloudmask_band zeroDistanceTransform probeJoined) = ["cloudmask"] ∧
    (cloudmask_band zeroDistanceTransform probeJoined).bands.map Band.scale = [20] ∧
    (∀ q, firstBandData (is_cld_shdw zeroDistanceTransform probeJoined) q
      = if 0 < firstBandData ((add_shadow_bands zeroDistanceTransform
              (add_cloud_bands probeJoined)).base.select "clouds") q
            + firstBandData ((add_shadow_bands zeroDistanceTransform
              (add_cloud_bands probeJoined)).base.select "shadows") q
        then 1 else 0) ∧
    (∀ q, firstBandData (cloudmask_band zeroDistanceTransform probeJoined) q
      = focalMaxR (BUFFER * 2 / 20)
          (focalMinR 2 (firstBandData (is_cld_shdw zeroDistanceTransform probeJoined))) q) ∧
    BUFFER * 2 / 20 = 5 ∧
    (∀ q, firstBandData (cloudmask_band zeroDistanceTransform probeJoined) q = 0)) :=
  ⟨probe_is_cld_shdw_eval,
   add_cld_shdw_mask_morphology zeroDistanceTransform probeJoined (0, 0) probe_is_cld_shdw_eval⟩

/-- Band names of concatenated band lists distribute over `addBands`. -/
theorem bandNames_addBands (img other : EEImage) :
    bandNames (img.addBands other) = bandNames img ++ bandNames other := by
  simp [bandNames, EEImage.addBands]

/-- Band names produced by `add_cloud_bands`: the input's followed by
`probability` and `clouds`. -/
theorem bandNames_add_cloud_bands (img : JoinedImage) :
    bandNames (add_cloud_bands img).base = bandNames img.base ++ ["probability", "clouds"] := by
  have h : bandNames (imageList [cld_prb img, is_cloud img])
      = bandNames (cld_prb img) ++ bandNames (is_cloud img) := by
    simp [imageList, bandNames]
  rw [show (add_cloud_bands img).base = img.base.addBands (imageList [cld_prb img, is_cloud img]) from rfl,
    bandNames_addBands, h, bandNames_cld_prb, bandNames_is_cloud]
  simp

/-- Band names produced by `add_shadow_bands`: the input's followed by
`dark_pixels`, `cloud_transform` and `shadows`. -/
theorem bandNames_add_shadow_bands (ddt : DirectionalDistanceTransform) (img : JoinedImage) :
    bandNames (add_shadow_bands ddt img).base
      = bandNames img.base ++ ["dark_pixels", "cloud_transform", "shadows"] := by
  have h : bandNames (imageList [dark_pixels img, cld_proj ddt img, shadows ddt img])
      = bandNames (dark_pixels img) ++ (bandNames (cld_proj ddt img) ++ bandNames (shadows ddt img)) := by
    simp [imageList, bandNames]
  rw [show (add_shadow_bands ddt img).base
      = img.base.addBands (imageList [dark_pixels img, cld_proj ddt img, shadows ddt img]) from rfl,
    bandNames_addBands, h, bandNames_dark_pixels, bandNames_cld_proj, bandNames_shadows]
  simp

/-- Band names produced by `add_cld_shdw_mask`: the input's followed by all
six derived bands. -/
theorem bandNames_add_cld_shdw_mask (ddt : DirectionalDistanceTransform) (img : JoinedImage) :
    bandNames (add_cld_shdw_mask ddt img).base
      = bandNames img.base
          ++ ["probability", "clouds", "dark_pixels", "cloud_transform", "shadows", "cloudmask"] := by
  rw [show (add_cld_shdw_mask ddt img).base
      = (add_shadow_bands ddt (add_cloud_bands img)).base.addBands (cloudmask_band ddt img) from rfl,
    bandNames_addBands, bandNames_add_shadow_bands, bandNames_add_cloud_bands,
    bandNames_cloudmask_band]
  simp

/-- C9. Every augmentation step returns a scene holding all the input's bands
unchanged, in order, with the newly derived named bands appended; no band is
modified or removed. -/
theorem augmentation_appends_bands (ddt : DirectionalDistanceTransform) (img : JoinedImage) :
    ((add_cloud_bands img).base.bands
        = img.base.bands ++ ((cld_prb img).bands ++ (is_cloud img).bands) ∧
     bandNames (add_cloud_bands img).base = bandNames img.base ++ ["probability", "clouds"]) ∧
    ((add_shadow_bands ddt img).base.bands
        = img.base.bands
            ++ ((dark_pixels img).bands ++ ((cld_proj ddt img).bands ++ (shadows ddt img).bands)) ∧
     bandNames (add_shadow_bands ddt img).base
        = bandNames img.base ++ ["dark_pixels", "cloud_transform", "shadows"]) ∧
    ((add_cld_shdw_mask ddt img).base.bands
        = (add_shadow_bands ddt (add_cloud_bands img)).base.bands ++ (cloudmask_band ddt img).bands ∧
     bandNames (add_cld_shdw_mask ddt img).base
        = bandNames img.base
            ++ ["probability", "clouds", "dark_pixels", "cloud_transform", "shadows", "cloudmask"]) := by
  refine ⟨⟨?_, bandNames_add_cloud_bands img⟩,
          ⟨?_, bandNames_add_shadow_bands ddt img⟩,
          ⟨rfl, bandNames_add_cld_shdw_mask ddt img⟩⟩
  · simp [add_cloud_bands, EEImage.addBands, imageList]
  · simp [add_shadow_bands, EEImage.addBands, imageList]

/-- C6 counterexample input: the probe scene carries no `clouds` and no
`shadows` band, yet `add_cld_shdw_mask` processes it fully, appending a
`cloudmask` band and itself computing a `clouds` band whose value at the
origin is 1. -/
theorem add_cld_shdw_mask_needs_no_precondition_cex :
    (bandNames probeJoined.base).contains "clouds" = false ∧
    (bandNames probeJoined.base).contains "shadows" = false ∧
    (bandNames (add_cld_shdw_mask zeroDistanceTransform probeJoined).base).contains "cloudmask"
      = true ∧
    (bandNames (add_cld_shdw_mask zeroDistanceTransform probeJoined).base).contains "clouds"
      = true ∧
    firstBandData ((add_cld_shdw_mask zeroDistanceTransform probeJoined).base.select "clouds")
      (0, 0) = 1 := by
  refine ⟨by decide, by decide, by decide, by decide, ?_⟩
  have hv : firstBandData
      ((add_cld_shdw_mask zeroDistanceTransform probeJoined).base.select "clouds") (0, 0)
      = if CLD_PRB_THRESH < centerProbability (0, 0) then (1 : ℚ) else 0 := rfl
  rw [hv]
  norm_num [centerProbability, CLD_PRB_THRESH]

/-- C6 (amended). `add_cld_shdw_mask` does not require its input to carry the
is-cloud and shadow bands: on a scene carrying neither, it computes them
itself by running `add_cloud_bands` and `add_shadow_bands` on the input, and
appends the combined `cloudmask` band. -/
theorem add_cld_shdw_mask_computes_own_bands (ddt : DirectionalDistanceTransform)
    (img : JoinedImage)
    (hc : ¬ "clouds" ∈ bandNames img.base) (hs : ¬ "shadows" ∈ bandNames img.base) :
    (add_cld_shdw_mask ddt img).base.bands
      = (add_shadow_bands ddt (add_cloud_bands img)).base.bands ++ (cloudmask_band ddt img).bands ∧
    "clouds" ∈ bandNames (add_cld_shdw_mask ddt img).base ∧
    "shadows" ∈ bandNames (add_cld_shdw_mask ddt img).base ∧
    "cloudmask" ∈ bandNames (add_cld_shdw_mask ddt img).base := by
  refine ⟨rfl, ?_, ?_, ?_⟩ <;>
    rw [bandNames_add_cld_shdw_mask] <;>
    exact List.mem_append_right _ (by decide)

/-- Witness for C6 (amended) at the probe scene. -/
theorem add_cld_shdw_mask_computes_own_bands_wit :
    (¬ "clouds" ∈ bandNames probeJoined.base ∧ ¬ "shadows" ∈ bandNames probeJoined.base) ∧
    ((add_cld_shdw_mask zeroDistanceTransform probeJoined).base.bands
      = (add_shadow_bands zeroDistanceTransform (add_cloud_bands probeJoined)).base.bands
          ++ (cloudmask_band zeroDistanceTransform probeJoined).bands ∧
     "clouds" ∈ bandNames (add_cld_shdw_mask zeroDistanceTransform probeJoined).base ∧
     "shadows" ∈ bandNames (add_cld_shdw_mask zeroDistanceTransform probeJoined).base ∧
     "cloudmask" ∈ bandNames (add_cld_shdw_mask zeroDistanceTransform probeJoined).base) :=
  ⟨⟨by decide, by decide⟩,
   add_cld_shdw_mask_computes_own_bands zeroDistanceTransform probeJoined
     (by decide) (by decide)⟩

/-- C3. Every member of the joined collection built by `get_s2_sr_cld_col`
comes from the imagery source, covers the area of interest, lies in the
half-open date interval, has scene-level cloud percentage at most
`CLOUD_FILTER`, and carries an attached cloud-probability record of exactly
equal identifier; and on the identifier scenario {A, B, C} joined with
{A, B, D}, the collection contains exactly A and B, with C and D silently
excluded. -/
theorem get_s2_sr_cld_col_membership (s2_sr_data s2_cloudless_data : List EEImage)
    (aoi : Aoi) (start_date end_date : ℕ) (j : JoinedImage)
    (hj : j ∈ get_s2_sr_cld_col s2_sr_data s2_cloudless_data aoi start_date end_date) :
    (j.base ∈ s2_sr_data ∧ j.base.coversAoi aoi = true ∧
     start_date ≤ j.base.date ∧ j.base.date < end_date ∧
     j.base.cloudyPixelPercentage ≤ CLOUD_FILTER ∧
     j.s2cloudless ∈ s2_cloudless_data ∧ j.s2cloudless.index = j.base.index) ∧
    (get_s2_sr_cld_col s2_sr_demo s2_cloudless_demo AOI START_DATE END_DATE).map
        (fun k => k.base.index) = ["A", "B"] := by
  refine ⟨?_, by decide⟩
  simp only [get_s2_sr_cld_col, joinSaveFirst] at hj
  obtain ⟨s, hs, hf⟩ := List.mem_filterMap.mp hj
  cases ho : (filterDate start_date end_date (filterBounds aoi s2_cloudless_data)).find?
      (fun c => c.index == s.index) with
  | none =>
      rw [ho] at hf
      simp at hf
  | some c =>
      rw [ho] at hf
      simp only [Option.map_some'] at hf
      have hjc : JoinedImage.mk s c = j := Option.some.inj hf
      subst hjc
      simp only [filterCloudyLte, filterDate, filterBounds] at hs
      obtain ⟨hs1, hcpp⟩ := List.mem_filter.mp hs
      obtain ⟨hs2, hdate⟩ := List.mem_filter.mp hs1
      obtain ⟨hs3, hbound⟩ := List.mem_filter.mp hs2
      have hcppq := of_decide_eq_true hcpp
      have hdateq := of_decide_eq_true hdate
      have hcmem : c ∈ filterDate start_date end_date (filterBounds aoi s2_cloudless_data) :=
        List.mem_of_find?_eq_some ho
      simp only [filterDate, filterBounds] at hcmem
      obtain ⟨hcm1, _⟩ := List.mem_filter.mp hcmem
      obtain ⟨hcm2, _⟩ := List.mem_filter.mp hcm1
      have hidx : c.index = s.index := by simpa using List.find?_some ho
      exact ⟨hs3, hbound, hdateq.1, hdateq.2, hcppq, hcm2, hidx⟩

/-- Witness for C3: the scene of identifier A in the demo collections is a
member of the joined collection and satisfies all membership guarantees. -/
theorem get_s2_sr_cld_col_membership_wit :
    (⟨mkScene "A", mkScene "A"⟩ : JoinedImage)
        ∈ get_s2_sr_cld_col s2_sr_demo s2_cloudless_demo AOI START_DATE END_DATE ∧
    (((⟨mkScene "A", mkScene "A"⟩ : JoinedImage).base ∈ s2_sr_demo ∧
      (⟨mkScene "A", mkScene "A"⟩ : JoinedImage).base.coversAoi AOI = true ∧
      START_DATE ≤ (⟨mkScene "A", mkScene "A"⟩ : JoinedImage).base.date ∧
      (⟨mkScene "A", mkScene "A"⟩ : JoinedImage).base.date < END_DATE ∧
      (⟨mkScene "A", mkScene "A"⟩ : JoinedImage).base.cloudyPixelPercentage ≤ CLOUD_FILTER ∧
      (⟨mkScene "A", mkScene "A"⟩ : JoinedImage).s2cloudless ∈ s2_cloudless_demo ∧
      (⟨mkScene "A", mkScene "A"⟩ : JoinedImage).s2cloudless.index
        = (⟨mkScene "A", mkScene "A"⟩ : JoinedImage).base.index) ∧
     (get_s2_sr_cld_col s2_sr_demo s2_cloudless_demo AOI START_DATE END_DATE).map
        (fun k => k.base.index) = ["A", "B"]) := by
  have hj : (⟨mkScene "A", mkScene "A"⟩ : JoinedImage)
      ∈ get_s2_sr_cld_col s2_sr_demo s2_cloudless_demo AOI START_DATE END_DATE := by
    show (⟨mkScene "A", mkScene "A"⟩ : JoinedImage)
        ∈ [(⟨mkScene "A", mkScene "A"⟩ : JoinedImage), ⟨mkScene "B", mkScene "B"⟩]
    exact List.mem_cons_self _ _
  exact ⟨hj, get_s2_sr_cld_col_membership _ _ _ _ _ _ hj⟩

/-- C7 counterexample input: the map built by `display_cloud_layers` does not
carry six layers. -/
theorem display_cloud_layers_map_not_six :
    (display_cloud_layers_map []).layers.length ≠ 6 := by decide

/-- C7 (amended). `display_cloud_layers` mosaics the collection and attaches
exactly seven display layers (true-colour composite, cloud probability,
is-cloud mask, shadow projection, dark pixels, combined shadows, final
cloudmask), each as a separately named, separately styled overlay with its
fixed visualization parameters, on a map centred on the centroid of the area
of interest, with a layer control for toggling them independently. -/
theorem display_cloud_layers_map_config (col : List JoinedImage) :
    (display_cloud_layers_map col).location = centroidCoordinatesReversed AOI ∧
    (display_cloud_layers_map col).zoom_start = 12 ∧
    (display_cloud_layers_map col).layer_control = true ∧
    (display_cloud_layers_map col).layers.map TileLayer.name
      = ["S2 image", "probability (cloud)", "clouds", "cloud_transform",
         "dark_pixels", "shadows", "cloudmask"] ∧
    (display_cloud_layers_map col).layers.length = 7 ∧
    (display_cloud_layers_map col).layers.map TileLayer.overlay
      = [true, true, true, true, true, true, true] ∧
    (display_cloud_layers_map col).layers.map TileLayer.control
      = [true, true, true, true, true, true, true] ∧
    (display_cloud_layers_map col).layers.map TileLayer.shown
      = [true, false, false, false, false, false, true] ∧
    (display_cloud_layers_map col).layers.map TileLayer.vis
      = [S2_VIS, PROBABILITY_VIS, CLOUDS_VIS, CLOUD_TRANSFORM_VIS,
         DARK_PIXELS_VIS, SHADOWS_VIS, CLOUDMASK_VIS] ∧
    (display_cloud_layers_map col).layers.map TileLayer.img
      = [mosaic col, (mosaic col).select "probability",
         ((mosaic col).select "clouds").selfMask, (mosaic col).select "cloud_transform",
         ((mosaic col).select "dark_pixels").selfMask, ((mosaic col).select "shadows").selfMask,
         ((mosaic col).select "cloudmask").selfMask] :=
  ⟨rfl, rfl, rfl, rfl, rfl, rfl, rfl, rfl, rfl, rfl⟩

/-- C8 counterexample input: `display_cloud_layers` evaluates to `None`, not
to a map object. -/
theorem display_cloud_layers_cex : display_cloud_layers [] = none := rfl

/-- C8 (amended). `display_cloud_layers` builds an interactive map object
internally (seven layers plus a layer control) but its body has no return
statement, so every call returns `None`; and no call of it occurs at the top
level of the module, so no return value from it is consumed anywhere in this
repository. -/
theorem display_cloud_layers_effect (col : List JoinedImage) :
    display_cloud_layers col = none ∧
    (display_cloud_layers_map col).layer_control = true ∧
    (display_cloud_layers_map col).layers.length = 7 ∧
    a4_top_level_calls.contains "display_cloud_layers" = false :=
  ⟨rfl, rfl, rfl, by decide⟩

/-- C10. A call of `add_ee_layer` with `show`, `opacity` and `min_zoom`
omitted uses the defaults true, 1 and 0; and every call, whatever its
arguments, appends exactly one tile layer constructed with `overlay = true`
and `control = true`, carrying the supplied visibility, opacity and minimum
zoom. -/
theorem add_ee_layer_defaults_and_flags (m : FoliumMap) (eeobj : EEImage)
    (vp : VisParams) (nm : String) (s : Bool) (o : ℚ) (z : ℕ) :
    add_ee_layer_defaulted m eeobj vp nm = add_ee_layer m eeobj vp nm true 1 0 ∧
    (add_ee_layer m eeobj vp nm s o z).layers.map TileLayer.overlay
      = m.layers.map TileLayer.overlay ++ [true] ∧
    (add_ee_layer m eeobj vp nm s o z).layers.map TileLayer.control
      = m.layers.map TileLayer.control ++ [true] ∧
    (add_ee_layer m eeobj vp nm s o z).layers.map TileLayer.shown
      = m.layers.map TileLayer.shown ++ [s] ∧
    (add_ee_layer m eeobj vp nm s o z).layers.map TileLayer.opacity
      = m.layers.map TileLayer.opacity ++ [o] ∧
    (add_ee_layer m eeobj vp nm s o z).layers.map TileLayer.min_zoom
      = m.layers.map TileLayer.min_zoom ++ [z] := by
  refine ⟨rfl, ?_, ?_, ?_, ?_, ?_⟩ <;> simp [add_ee_layer]
